import Mathlib

/-!
Shallow embedding of the runtime orchestration layer in
src/packages/desktop/src/main.rs (Zebar desktop entry point): the
dispatcher loop (listen_events), the CLI-driven widget open path
(open_widgets_by_cli_command), the single-instance forwarded handler
(setup_single_instance), the main entry dispatch (main) and the
run-event exit handler (start_app).

Effects performed by collaborators that live outside main.rs
(SysTray.refresh, WidgetFactory.open, WidgetFactory.relaunch_all,
CLI parsing) are abstracted as oracle parameters returning
Except String Unit; the embedding records which action is selected
and what is logged. Config helpers that are not among the extracted
sources (join_config_dir, widget_config_by_path,
startup_widget_configs) are modelled from the spec and marked as such.
-/

namespace Zebar

/-- One widget definition: identity is the source path; the autostart
flag marks membership in the startup set (spec section 3). -/
structure WidgetConfig where
  path : String
  autostart : Bool
  deriving DecidableEq

/-- Arguments of the open-widget-default subcommand: a config path and
an optional config-directory override. -/
structure OpenWidgetDefaultArgs where
  config_path : String
  config_dir : Option String
  deriving DecidableEq

/-- Arguments of the startup subcommand: an optional config-directory
override. -/
structure StartupArgs where
  config_dir : Option String
  deriving DecidableEq

/-- Arguments of the query subcommand. -/
inductive QueryArgs where
  | monitors
  deriving DecidableEq

/-- The closed set of CLI subcommands, as matched in main.rs
(CliCommand::Query, OpenWidgetDefault, Startup, Empty). -/
inductive CliCommand where
  | query (args : QueryArgs)
  | openWidgetDefault (args : OpenWidgetDefaultArgs)
  | startup (args : StartupArgs)
  | empty
  deriving DecidableEq

/-- Whether a command is the query subcommand (the branch main handles
before start_app). -/
def CliCommand.isQuery : CliCommand → Bool
  | .query _ => true
  | _ => false

/-- Configuration state: the config directory and the loaded widget
configs, keyed by path. -/
structure Config where
  config_dir : String
  widget_configs : List WidgetConfig
  deriving DecidableEq

/-- Modelled from the spec: the path-join helper of Config is not among
the extracted sources; per spec section 4.1 it joins a path onto the
config directory. -/
def Config.join_config_dir (c : Config) (p : String) : String :=
  c.config_dir ++ "/" ++ p

/-- Modelled from the spec: lookup-by-path over the set of widget
configs keyed by path (Config::widget_config_by_path is not among the
extracted sources). -/
def Config.widget_config_by_path (c : Config) (p : String) :
    Option WidgetConfig :=
  c.widget_configs.find? (fun wc => wc.path == p)

/-- Modelled from the spec: the startup set is the widget configs
flagged autostart (Config::startup_widget_configs is not among the
extracted sources). -/
def Config.startup_widget_configs (c : Config) : List WidgetConfig :=
  c.widget_configs.filter (fun wc => wc.autostart)

/-- The five change signals the dispatcher loop subscribes to
(main.rs lines 197-202). -/
inductive ChangeSignal where
  | widgetOpened
  | widgetClosed
  | settingsChanged
  | monitorsChanged
  | widgetConfigsChanged
  deriving DecidableEq

/-- The reconciliation actions available to the dispatcher loop. -/
inductive ReconcileAction where
  | trayRefresh
  | relaunchAll
  deriving DecidableEq

/-- The action selected for each received signal in the select arms of
listen_events (main.rs lines 206-227). -/
def actionFor : ChangeSignal → ReconcileAction
  | .widgetOpened => .trayRefresh
  | .widgetClosed => .trayRefresh
  | .settingsChanged => .trayRefresh
  | .monitorsChanged => .relaunchAll
  | .widgetConfigsChanged => .relaunchAll

/-- What the `if let Err(err) = res` blocks log: the error message when
the result is an error, nothing otherwise. -/
def loggedError : Except String Unit → Option String
  | .ok _ => none
  | .error e => some e

/-- A run of the dispatcher loop of listen_events over a finite list of
received signals. The oracle gives the outcome of performing the
selected reconciliation action for a signal; each iteration records the
selected action and the logged error, then the loop continues
(main.rs lines 204-233). -/
def dispatcherRun (oracle : ChangeSignal → Except String Unit) :
    List ChangeSignal → List (ReconcileAction × Option String)
  | [] => []
  | s :: rest =>
    (actionFor s, loggedError (oracle s)) :: dispatcherRun oracle rest

/-- The for loop at the end of open_widgets_by_cli_command
(main.rs lines 294-298): each widget config in the batch is passed to
WidgetFactory::open (abstracted by the openResult oracle) and a failure
is logged, never propagated. The trace records, per config, the logged
error if any. -/
def openWidgetsLoop (openResult : WidgetConfig → Except String Unit) :
    List WidgetConfig → List (WidgetConfig × Option String)
  | [] => []
  | wc :: rest =>
    (wc, loggedError (openResult wc)) :: openWidgetsLoop openResult rest

/-- The widget-config selection of open_widgets_by_cli_command
(main.rs lines 277-292): for OpenWidgetDefault, lookup at the path
joined onto the config directory, erroring when absent; for every other
command, the startup widget configs. -/
def selectWidgetConfigs (config : Config) :
    CliCommand → Except String (List WidgetConfig)
  | .openWidgetDefault args =>
    match
      config.widget_config_by_path
        (config.join_config_dir args.config_path) with
    | some widget_config => .ok [widget_config]
    | none =>
      .error ("Widget config not found at " ++ args.config_path ++ ".")
  | _ => .ok config.startup_widget_configs

/-- open_widgets_by_cli_command (main.rs lines 272-301): select the
widget configs for the command (propagating a selection error), then
attempt to open every selected config, logging per-widget failures, and
return success. -/
def open_widgets_by_cli_command (config : Config)
    (openResult : WidgetConfig → Except String Unit)
    (cmd : CliCommand) :
    Except String (List (WidgetConfig × Option String)) :=
  match selectWidgetConfigs config cmd with
  | .error e => .error e
  | .ok widget_configs => .ok (openWidgetsLoop openResult widget_configs)

/-- The startup-path call site (start_app, main.rs lines 148-154): the
setup closure invokes open_widgets_by_cli_command on the CLI command it
was launched with, propagating its error with the question-mark
operator. -/
def startupOpenCall (config : Config)
    (openResult : WidgetConfig → Except String Unit)
    (cmd : CliCommand) :
    Except String (List (WidgetConfig × Option String)) :=
  open_widgets_by_cli_command config openResult cmd

/-- The forwarded-path call site (setup_single_instance, main.rs lines
250-257): open_widgets_by_cli_command is invoked only when the parsed
command is not Empty; for Empty the handler yields Ok with no opens. -/
def forwardedOpenCall (config : Config)
    (openResult : WidgetConfig → Except String Unit)
    (cmd : CliCommand) :
    Except String (List (WidgetConfig × Option String)) :=
  if cmd ≠ CliCommand.empty then
    open_widgets_by_cli_command config openResult cmd
  else
    .ok []

/-- Outcome of the spawned task in the single-instance handler: it
either runs to completion (with its log and open trace) or propagates
an error out of the task. The embedding of the code never constructs
the propagated case. -/
inductive TaskOutcome where
  | completed (log : List String)
      (opens : List (WidgetConfig × Option String))
  | propagated (err : String)
  deriving DecidableEq

/-- The single-instance callback body (setup_single_instance, main.rs
lines 247-264): parse the forwarded arguments (abstracted as an Except
value), run the forwarded open call on success, build the parse-failure
error otherwise, then log any error and complete. -/
def forwardedHandler (config : Config)
    (openResult : WidgetConfig → Except String Unit)
    (parseResult : Except String CliCommand) : TaskOutcome :=
  let res : Except String (List (WidgetConfig × Option String)) :=
    match parseResult with
    | .ok cli => forwardedOpenCall config openResult cli
    | .error _ => .error "Failed to parse CLI arguments."
  match res with
  | .error e => .completed [e] []
  | .ok opens => .completed [] opens

/-- Observable outcome of main: whether the process exits successfully,
what main itself logged, and whether a user-facing dialog was shown. -/
structure MainOutcome where
  ok : Bool
  log : List String
  dialogShown : Bool
  deriving DecidableEq

/-- The dispatch in main (main.rs lines 50-64): the query command runs
output_query and returns its result without logging; every other
command runs start_app, logs its error if it failed, and returns the
result. No dialog is shown on either path (the dialog is a TODO in the
code). -/
def mainRun (queryResult startAppResult : Except String Unit) :
    CliCommand → MainOutcome
  | .query _ =>
    match queryResult with
    | .ok _ => ⟨true, [], false⟩
    | .error _ => ⟨false, [], false⟩
  | _ =>
    match startAppResult with
    | .ok _ => ⟨true, [], false⟩
    | .error e => ⟨false, [e], false⟩

/-- Run events delivered to the app.run callback; an exit request
carries an optional explicit exit code. -/
inductive RunEvent where
  | exitRequested (code : Option Int)
  | other
  deriving DecidableEq

/-- The run-event callback (start_app, main.rs lines 179-186): it calls
prevent_exit exactly on an exit request without an explicit code. -/
def preventsExit : RunEvent → Bool
  | .exitRequested none => true
  | _ => false

/-- Whether an event terminates the event loop: an exit request
proceeds unless the callback prevented it; other events never
terminate. -/
def exitProceeds : RunEvent → Bool
  | .exitRequested code => !(preventsExit (.exitRequested code))
  | .other => false

/- Concrete fixtures used by witnesses and counterexamples. -/

/-- A widget config stored at cfg/bar.json and flagged autostart. -/
def barWidget : WidgetConfig := ⟨"cfg/bar.json", true⟩

/-- A widget config stored at cfg/menu.json and flagged autostart. -/
def menuWidget : WidgetConfig := ⟨"cfg/menu.json", true⟩

/-- A config directory cfg holding only barWidget. -/
def sampleConfig : Config := ⟨"cfg", [barWidget]⟩

/-- A config directory cfg holding barWidget and menuWidget. -/
def batchConfig : Config := ⟨"cfg", [barWidget, menuWidget]⟩

/-- A config directory cfg holding no widget configs. -/
def emptyConfig : Config := ⟨"cfg", []⟩

/-- An open oracle that always succeeds. -/
def sampleOpenOk : WidgetConfig → Except String Unit := fun _ => .ok ()

/-- An open oracle that fails exactly on barWidget. -/
def mixedOpenResult : WidgetConfig → Except String Unit := fun wc =>
  if wc.path == "cfg/bar.json" then .error "window creation failed"
  else .ok ()

/- Helper lemmas shared across the claim theorems. -/

lemma dispatcherRun_length (oracle : ChangeSignal → Except String Unit)
    (sigs : List ChangeSignal) :
    (dispatcherRun oracle sigs).length = sigs.length := by
  induction sigs with
  | nil => rfl
  | cons s rest ih => simp [dispatcherRun, ih]

lemma openWidgetsLoop_map_fst
    (openResult : WidgetConfig → Except String Unit)
    (wcs : List WidgetConfig) :
    (openWidgetsLoop openResult wcs).map Prod.fst = wcs := by
  induction wcs with
  | nil => rfl
  | cons wc rest ih => simp [openWidgetsLoop, ih]

lemma mem_openWidgetsLoop
    (openResult : WidgetConfig → Except String Unit)
    (wcs : List WidgetConfig) (wc : WidgetConfig) (hmem : wc ∈ wcs) :
    (wc, loggedError (openResult wc)) ∈ openWidgetsLoop openResult wcs := by
  induction wcs with
  | nil => cases hmem
  | cons hd rest ih =>
    cases hmem with
    | head => exact List.mem_cons_self _ _
    | tail _ h => exact List.mem_cons_of_mem _ (ih h)

lemma widget_config_by_path_some (c : Config) (p : String)
    (wc : WidgetConfig) (h : c.widget_config_by_path p = some wc) :
    wc.path = p := by
  unfold Config.widget_config_by_path at h
  have hp := List.find?_some h
  simpa using hp

/-- A widget config stored at the bare path bar.json (not under the
config directory). -/
def rawWidget : WidgetConfig := ⟨"bar.json", true⟩

/-- A config directory cfg whose only widget config is stored at the
bare path bar.json. -/
def rawConfig : Config := ⟨"cfg", [rawWidget]⟩

/-- Claim C1: the dispatcher loop maps each received change signal to
exactly one reconciliation action: widget-opened, widget-closed and
settings-changed invoke SysTray.refresh, monitor-changed and
widget-configs-changed invoke WidgetFactory.relaunch_all, and no signal
triggers any other action. -/
theorem C1_dispatcher_signal_action_map :
    actionFor .widgetOpened = .trayRefresh ∧
    actionFor .widgetClosed = .trayRefresh ∧
    actionFor .settingsChanged = .trayRefresh ∧
    actionFor .monitorsChanged = .relaunchAll ∧
    actionFor .widgetConfigsChanged = .relaunchAll ∧
    ∀ s, actionFor s = .trayRefresh ∨ actionFor s = .relaunchAll := by
  refine ⟨rfl, rfl, rfl, rfl, rfl, ?_⟩
  intro s
  cases s <;> simp [actionFor]

/-- Claim C2: in every iteration of the dispatcher loop, an error from
the selected reconciliation action is logged and the loop proceeds to
the next iteration; a run over a finite signal list processes every
signal regardless of failures. -/
theorem C2_dispatcher_loop_survives_errors
    (oracle : ChangeSignal → Except String Unit) :
    (∀ sigs, (dispatcherRun oracle sigs).length = sigs.length) ∧
    (∀ s rest,
      dispatcherRun oracle (s :: rest) =
        (actionFor s, loggedError (oracle s)) :: dispatcherRun oracle rest) ∧
    (∀ e : String, loggedError (.error e) = some e) := by
  refine ⟨fun sigs => dispatcherRun_length oracle sigs, ?_, fun e => rfl⟩
  intro s rest
  rfl

/-- Claim C3, counterexample: at the empty CLI command the two call
sites diverge. The startup path still invokes
open_widgets_by_cli_command, which opens the startup widget configs,
while the forwarded path skips the call entirely: with a config holding
one autostart widget, the startup path opens it and the forwarded path
opens nothing. -/
theorem C3_counterexample :
    startupOpenCall sampleConfig sampleOpenOk CliCommand.empty =
      .ok [(barWidget, none)] ∧
    forwardedOpenCall sampleConfig sampleOpenOk CliCommand.empty =
      .ok [] ∧
    ([(barWidget, none)] : List (WidgetConfig × Option String)) ≠ [] := by
  refine ⟨rfl, rfl, by simp⟩

/-- Claim C3, amended: for every CLI command other than the empty
command, the startup open path and the single-instance-forwarded open
path invoke the same function open_widgets_by_cli_command on the same
inputs, so they perform identical config selection, open-trace
(registry mutation) and per-widget failure handling. -/
theorem C3_paths_agree_on_nonempty (config : Config)
    (openResult : WidgetConfig → Except String Unit) (cmd : CliCommand)
    (h : cmd ≠ CliCommand.empty) :
    forwardedOpenCall config openResult cmd =
      startupOpenCall config openResult cmd := by
  unfold forwardedOpenCall startupOpenCall
  simp [h]

/-- Claim C3, witness: at the startup command, the forwarded path and
the startup path produce the same outcome. -/
theorem C3_paths_agree_witness :
    forwardedOpenCall batchConfig mixedOpenResult
        (CliCommand.startup ⟨none⟩) =
      startupOpenCall batchConfig mixedOpenResult
        (CliCommand.startup ⟨none⟩) :=
  C3_paths_agree_on_nonempty batchConfig mixedOpenResult
    (CliCommand.startup ⟨none⟩) (by decide)

/-- Claim C4: for every batch of widget configs selected by
open_widgets_by_cli_command, the function returns success regardless of
per-widget open failures, every config in the batch is attempted in
order, and each config in the batch appears in the trace paired with
its logged error (if its open failed). -/
theorem C4_batch_open_isolates_failures (config : Config)
    (openResult : WidgetConfig → Except String Unit) (cmd : CliCommand)
    (wcs : List WidgetConfig)
    (h : selectWidgetConfigs config cmd = .ok wcs) :
    open_widgets_by_cli_command config openResult cmd =
      .ok (openWidgetsLoop openResult wcs) ∧
    (openWidgetsLoop openResult wcs).map Prod.fst = wcs ∧
    ∀ wc ∈ wcs,
      (wc, loggedError (openResult wc)) ∈ openWidgetsLoop openResult wcs := by
  refine ⟨?_, openWidgetsLoop_map_fst openResult wcs,
    fun wc hmem => mem_openWidgetsLoop openResult wcs wc hmem⟩
  unfold open_widgets_by_cli_command
  rw [h]

/-- Claim C4, witness: with two autostart widgets where opening the
first fails, the batch still returns success and both widgets are
attempted, the first with a logged error. -/
theorem C4_batch_open_witness :
    open_widgets_by_cli_command batchConfig mixedOpenResult
        (CliCommand.startup ⟨none⟩) =
      .ok [(barWidget, some "window creation failed"),
        (menuWidget, none)] ∧
    [(barWidget, some "window creation failed"),
        (menuWidget, (none : Option String))].map Prod.fst =
      [barWidget, menuWidget] :=
  have h := C4_batch_open_isolates_failures batchConfig mixedOpenResult
    (CliCommand.startup ⟨none⟩) [barWidget, menuWidget] (by rfl)
  ⟨h.1.trans (by rfl), h.2.1.trans (by rfl)⟩

/-- Claim C5, counterexample: the empty CLI command is not a no-op on
the first-instance startup path: with a config holding two autostart
widgets, start_app with the empty command opens both. -/
theorem C5_counterexample :
    startupOpenCall batchConfig sampleOpenOk CliCommand.empty =
      .ok [(barWidget, none), (menuWidget, none)] ∧
    ([(barWidget, none), (menuWidget, none)] :
        List (WidgetConfig × Option String)) ≠ [] := by
  refine ⟨rfl, by simp⟩

/-- Claim C5, amended: the empty CLI command is a no-op only on the
single-instance-forwarded path (no open call, nothing logged); on the
first-instance startup path it behaves exactly like the startup
command, opening every autostart widget config. -/
theorem C5_empty_command_behavior (config : Config)
    (openResult : WidgetConfig → Except String Unit) :
    forwardedOpenCall config openResult CliCommand.empty = .ok [] ∧
    forwardedHandler config openResult (.ok CliCommand.empty) =
      .completed [] [] ∧
    (∀ d, startupOpenCall config openResult CliCommand.empty =
      startupOpenCall config openResult (CliCommand.startup d)) ∧
    startupOpenCall config openResult CliCommand.empty =
      .ok (openWidgetsLoop openResult config.startup_widget_configs) := by
  refine ⟨rfl, rfl, fun d => rfl, rfl⟩

/-- Claim C6: open_widgets_by_cli_command selects exactly the config
found at the joined path for open-widget-default (an error when none
exists there), and exactly the autostart-flagged configs for startup. -/
theorem C6_config_selection (config : Config)
    (a : OpenWidgetDefaultArgs) (d : StartupArgs) :
    (∀ wc,
      config.widget_config_by_path (config.join_config_dir a.config_path) =
          some wc →
        selectWidgetConfigs config (.openWidgetDefault a) = .ok [wc]) ∧
    (config.widget_config_by_path (config.join_config_dir a.config_path) =
        none →
      selectWidgetConfigs config (.openWidgetDefault a) =
        .error ("Widget config not found at " ++ a.config_path ++ ".")) ∧
    selectWidgetConfigs config (.startup d) =
      .ok (config.widget_configs.filter (fun wc => wc.autostart)) ∧
    (∀ wc, wc ∈ config.startup_widget_configs ↔
      wc ∈ config.widget_configs ∧ wc.autostart = true) := by
  refine ⟨?_, ?_, rfl, ?_⟩
  · intro wc h
    simp only [selectWidgetConfigs]
    rw [h]
  · intro h
    simp only [selectWidgetConfigs]
    rw [h]
  · intro wc
    simp [Config.startup_widget_configs, List.mem_filter]

/-- Claim C6, witness: in a directory holding bar.json (autostart) and
menu.json (autostart), open-widget-default bar.json selects exactly the
bar widget and startup selects both. -/
theorem C6_config_selection_witness :
    selectWidgetConfigs batchConfig
        (CliCommand.openWidgetDefault ⟨"bar.json", none⟩) =
      .ok [barWidget] ∧
    selectWidgetConfigs batchConfig (CliCommand.startup ⟨none⟩) =
      .ok [barWidget, menuWidget] :=
  ⟨(C6_config_selection batchConfig ⟨"bar.json", none⟩ ⟨none⟩).1
      barWidget (by rfl),
    ((C6_config_selection batchConfig ⟨"bar.json", none⟩
      ⟨none⟩).2.2.1).trans (by rfl)⟩

/-- Claim C7: the single-instance forwarded handler always completes
(never propagates an error out of the spawned task): a parse failure is
logged as the fixed parse-error message, a failure from the open call
is logged, and a successful open call completes with no handler-level
log. -/
theorem C7_forwarded_failures_logged_only (config : Config)
    (openResult : WidgetConfig → Except String Unit)
    (parseResult : Except String CliCommand) :
    (∃ log opens,
      forwardedHandler config openResult parseResult =
        .completed log opens) ∧
    (∀ e, forwardedHandler config openResult (.error e) =
      .completed ["Failed to parse CLI arguments."] []) ∧
    (∀ cli err, forwardedOpenCall config openResult cli = .error err →
      forwardedHandler config openResult (.ok cli) =
        .completed [err] []) ∧
    (∀ cli opens, forwardedOpenCall config openResult cli = .ok opens →
      forwardedHandler config openResult (.ok cli) =
        .completed [] opens) := by
  refine ⟨?_, fun e => rfl, ?_, ?_⟩
  · cases parseResult with
    | error e => exact ⟨["Failed to parse CLI arguments."], [], rfl⟩
    | ok cli =>
      cases h : forwardedOpenCall config openResult cli with
      | error e => exact ⟨[e], [], by simp only [forwardedHandler, h]⟩
      | ok opens => exact ⟨[], opens, by simp only [forwardedHandler, h]⟩
  · intro cli err h
    simp only [forwardedHandler, h]
  · intro cli opens h
    simp only [forwardedHandler, h]

/-- Claim C7, witness: a parse failure and a widget-open failure on the
forwarded path both complete with the error only logged. -/
theorem C7_forwarded_witness :
    forwardedHandler batchConfig sampleOpenOk (.error "bad flag") =
      .completed ["Failed to parse CLI arguments."] [] ∧
    forwardedHandler emptyConfig sampleOpenOk
        (.ok (CliCommand.openWidgetDefault ⟨"bar.json", none⟩)) =
      .completed ["Widget config not found at bar.json."] [] :=
  ⟨(C7_forwarded_failures_logged_only batchConfig sampleOpenOk
      (.error "bad flag")).2.1 "bad flag",
    (C7_forwarded_failures_logged_only emptyConfig sampleOpenOk
      (.ok (CliCommand.openWidgetDefault ⟨"bar.json", none⟩))).2.2.1
      (CliCommand.openWidgetDefault ⟨"bar.json", none⟩)
      "Widget config not found at bar.json." (by rfl)⟩

/-- Claim C8: for every non-query CLI command, a start_app error is
logged by main and main returns failure (non-zero exit); a start_app
success returns success; no user-facing dialog is shown either way. -/
theorem C8_fatal_error_logged_no_dialog
    (queryResult startAppResult : Except String Unit)
    (cmd : CliCommand) (h : cmd.isQuery = false) :
    (∀ e, startAppResult = .error e →
      mainRun queryResult startAppResult cmd = ⟨false, [e], false⟩) ∧
    (startAppResult = .ok () →
      mainRun queryResult startAppResult cmd = ⟨true, [], false⟩) ∧
    (mainRun queryResult startAppResult cmd).dialogShown = false := by
  cases cmd with
  | query args => exact absurd h (by simp [CliCommand.isQuery])
  | openWidgetDefault args =>
    exact ⟨fun e he => by subst he; rfl, fun hok => by subst hok; rfl,
      by cases startAppResult <;> rfl⟩
  | startup args =>
    exact ⟨fun e he => by subst he; rfl, fun hok => by subst hok; rfl,
      by cases startAppResult <;> rfl⟩
  | empty =>
    exact ⟨fun e he => by subst he; rfl, fun hok => by subst hok; rfl,
      by cases startAppResult <;> rfl⟩

/-- Claim C8, witness: with the startup command, a failing start_app is
logged and yields failure; a succeeding start_app yields success, with
no dialog in either case. -/
theorem C8_witness :
    mainRun (.ok ()) (.error "fatal startup failure")
        (CliCommand.startup ⟨none⟩) =
      ⟨false, ["fatal startup failure"], false⟩ ∧
    mainRun (.ok ()) (.ok ()) (CliCommand.startup ⟨none⟩) =
      ⟨true, [], false⟩ :=
  ⟨(C8_fatal_error_logged_no_dialog (.ok ())
      (.error "fatal startup failure") (CliCommand.startup ⟨none⟩)
      (by rfl)).1 "fatal startup failure" rfl,
    (C8_fatal_error_logged_no_dialog (.ok ()) (.ok ())
      (CliCommand.startup ⟨none⟩) (by rfl)).2.1 rfl⟩

/-- Claim C9: for open-widget-default, the config path is joined onto
the config directory before lookup: a selected config always lives at
the joined path, absence at the joined path is an error (whatever is
stored at the bare path), and the joined path is the config directory
prepended to the argument. -/
theorem C9_path_joined_before_lookup (config : Config)
    (a : OpenWidgetDefaultArgs) :
    (∀ wc, selectWidgetConfigs config (.openWidgetDefault a) = .ok [wc] →
      config.widget_config_by_path (config.join_config_dir a.config_path) =
          some wc ∧
        wc.path = config.join_config_dir a.config_path) ∧
    (config.widget_config_by_path (config.join_config_dir a.config_path) =
        none →
      selectWidgetConfigs config (.openWidgetDefault a) =
        .error ("Widget config not found at " ++ a.config_path ++ ".")) ∧
    config.join_config_dir a.config_path =
      config.config_dir ++ "/" ++ a.config_path := by
  refine ⟨?_, ?_, rfl⟩
  · intro wc h
    simp only [selectWidgetConfigs] at h
    cases hl : config.widget_config_by_path
        (config.join_config_dir a.config_path) with
    | none =>
      rw [hl] at h
      exact absurd h (by simp)
    | some w =>
      rw [hl] at h
      simp only [Except.ok.injEq, List.cons.injEq, and_true] at h
      subst h
      exact ⟨rfl, widget_config_by_path_some config _ w hl⟩
  · intro h
    simp only [selectWidgetConfigs]
    rw [h]

/-- Claim C9, witness: with a config stored at the bare path bar.json
under config directory cfg, open-widget-default bar.json fails (lookup
happens at cfg/bar.json, not at the bare path), while the same command
succeeds in batchConfig where the config lives at cfg/bar.json and the
selected config has exactly that joined path. -/
theorem C9_path_joined_witness :
    rawConfig.widget_config_by_path "bar.json" = some rawWidget ∧
    selectWidgetConfigs rawConfig
        (CliCommand.openWidgetDefault ⟨"bar.json", none⟩) =
      .error "Widget config not found at bar.json." ∧
    barWidget.path = rawConfig.join_config_dir "bar.json" :=
  ⟨by rfl,
    ((C9_path_joined_before_lookup rawConfig ⟨"bar.json", none⟩).2.1
      (by rfl)).trans (by rfl),
    ((C9_path_joined_before_lookup batchConfig ⟨"bar.json", none⟩).1
      barWidget (by rfl)).2⟩

/-- Claim C10: the run-event handler prevents exit exactly on an exit
request without an explicit code, so the process never terminates
merely because all windows closed; only an exit request carrying an
explicit code proceeds to terminate. -/
theorem C10_no_exit_without_code :
    preventsExit (RunEvent.exitRequested none) = true ∧
    exitProceeds (RunEvent.exitRequested none) = false ∧
    (∀ c : Int, preventsExit (RunEvent.exitRequested (some c)) = false ∧
      exitProceeds (RunEvent.exitRequested (some c)) = true) ∧
    (∀ e : RunEvent, exitProceeds e = true ↔
      ∃ c, e = RunEvent.exitRequested (some c)) := by
  refine ⟨rfl, rfl, fun c => ⟨rfl, rfl⟩, ?_⟩
  intro e
  cases e with
  | exitRequested code =>
    cases code with
    | none => simp [exitProceeds, preventsExit]
    | some c => simp [exitProceeds, preventsExit]
  | other => simp [exitProceeds]

end Zebar
